import Mathlib

/-!
Verification development for the rs-readme markdown preview server.

The Rust sources are shallowly embedded as executable Lean definitions:

* `content_finder.rs` : the `FileFinder` content source (`content_for`),
  with `std::path` join / extension semantics modelled on a structured
  path type `RPath`.  The on-disk file system is a parameter
  `fs : RPath -> Option String`, and the SHA-1 digest is modelled as an
  abstract hex-string function parameter `sha1hex : String -> String`
  (the digest value itself is never computed by the claims at issue).
* `web_server.rs` : the page composers (`base_html`, `markdown_html`,
  `not_markdown_html`, `file_not_found`) with horrorshow's default
  escaping of spliced text nodes (`htmlEscape`; `Raw(..)` splices
  bypass it), the handlers `render_readme`, `render_markdown_path`,
  the SSE handler `render_page_update`, and the `ErrorMiddleware`
  (`runErrorMiddleware`).  The middleware models tide converting an
  uncaught handler error into a response carrying the error status
  (500 for a plain error) and an empty body.
* `static_files.rs` : the `octicons` and `style` endpoints with their
  conditional-GET logic; the bundled asset payloads are parameters.

Strings stand for both Rust strings and byte payloads (the paths and
headers involved are ASCII, so Rust byte slicing agrees with the
character-level operations used here).
-/

set_option maxRecDepth 16384

namespace RsReadme

/-! ## Paths: a model of the `std::path` operations used by `FileFinder` -/

/-- A structured file path: whether it is absolute, and its components
(empty and current-directory components dropped, as Rust component
iteration does). -/
structure RPath where
  absolute : Bool
  comps : List String
deriving DecidableEq

/-- Split a character list at every slash. -/
def splitSlashAux : List Char → List Char → List String
  | [], acc => [⟨acc.reverse⟩]
  | c :: cs, acc =>
    if c = '/' then ⟨acc.reverse⟩ :: splitSlashAux cs []
    else splitSlashAux cs (c :: acc)

/-- Split a string at every slash (like Rust `split('/')`). -/
def splitSlash (s : String) : List String :=
  splitSlashAux s.data []

/-- Does the string start with a slash (an absolute Unix path)? -/
def isAbs (s : String) : Bool :=
  match s.data with
  | c :: _ => c == '/'
  | [] => false

/-- Parse a path string into its structured form. -/
def parsePath (s : String) : RPath :=
  ⟨isAbs s, (splitSlash s).filter (fun c => c != "" && c != ".")⟩

/-- `PathBuf::push`: an absolute argument replaces the whole path,
otherwise the components are appended. -/
def RPath.push (base arg : RPath) : RPath :=
  if arg.absolute then arg else ⟨base.absolute, base.comps ++ arg.comps⟩

/-- `Path::file_name`: the last component, unless it is a parent-dir
component or the path has no components. -/
def RPath.fileName (p : RPath) : Option String :=
  match p.comps.getLast? with
  | some c => if c == ".." then none else some c
  | none => none

/-- The characters after the last dot of the list, if any dot occurs. -/
def extAfterLastDot : List Char → Option (List Char)
  | [] => none
  | c :: cs =>
    match extAfterLastDot cs with
    | some e => some e
    | none => if c == '.' then some cs else none

/-- `Path::extension().unwrap_or("")` on a file name: the part after the
last dot, except that a dot in first position alone gives no extension. -/
def rustExt (n : String) : String :=
  match n.data with
  | [] => ""
  | _ :: cs =>
    match extAfterLastDot cs with
    | some e => ⟨e⟩
    | none => ""

/-- `Path::extension().unwrap_or("")` of a path. -/
def RPath.extension (p : RPath) : String :=
  match p.fileName with
  | none => ""
  | some n => rustExt n

/-- One step of path normalisation: skip `.`, let `..` cancel the last
kept component (or accumulate when nothing can be cancelled). -/
def normStep (acc : List String) (c : String) : List String :=
  if c == "." then acc
  else if c == ".." then
    match acc.getLast? with
    | some l => if l == ".." then acc ++ [c] else acc.dropLast
    | none => acc ++ [c]
  else acc ++ [c]

/-- Normalise a component list by resolving `.` and `..` segments. -/
def normComps (cs : List String) : List String :=
  cs.foldl normStep []

/-- Does `p` denote a location under `root`: same absoluteness and the
normalised root components are an initial segment of the normalised
path components. -/
def underRoot (root p : RPath) : Bool :=
  (root.absolute == p.absolute)
    && (normComps root.comps).isPrefixOf (normComps p.comps)

/-! ## `content_finder.rs` -/

/-- The possible errors while finding some markdown content
(`ContentError` in `content_finder.rs`). -/
inductive ContentError where
  /-- The requested content could not be fetched (a file error). -/
  | couldNotFetch (resource : String)
  /-- The requested content was not markdown. -/
  | notMarkdown
deriving DecidableEq

/-- `FileFinder::content_for`: join the root with the resource, demand
the `md` extension before any file access, then read the file and hash
its contents.  `fs` models the disk, `sha1hex` the SHA-1 hex digest. -/
def content_for (fs : RPath → Option String) (sha1hex : String → String)
    (root resource : String) : Except ContentError (String × String) :=
  let path := (parsePath root).push (parsePath resource)
  if path.extension ≠ "md" then .error .notMarkdown
  else
    match fs path with
    | none => .error (.couldNotFetch resource)
    | some contents => .ok (contents, sha1hex contents)

/-! ## `markdown_converter.rs` / `converter/mod.rs` -/

/-- Represents an error from the markdown converter (`MarkdownError`). -/
inductive MarkdownError where
  | converterUnavailable (reason : String)
deriving DecidableEq

/-- The typed failures a handler can propagate (`tide::Error` carrying
either a `ContentError` or a `MarkdownError`). -/
inductive AppFailure where
  | content (e : ContentError)
  | markdown (e : MarkdownError)
deriving DecidableEq

/-! ## `web_server.rs`: requests, responses, page composers -/

/-- The parts of an HTTP request the embedded handlers can observe. -/
structure Request where
  path : String
  ifNoneMatch : Option String
deriving DecidableEq

/-- An HTTP response: status code, headers, body. -/
structure Response where
  status : Nat
  headers : List (String × String)
  body : String
deriving DecidableEq

/-- The mime string tide emits for `mime::HTML`. -/
def htmlMime : String := "text/html; charset=utf-8"

/-- Horrorshow's default escaping of one character of a spliced text
node: `&`, `"`, `<` and `>` are replaced by their entities, everything
else (the apostrophe included) passes through. -/
def escapeChar (c : Char) : List Char :=
  if c = '&' then ['&', 'a', 'm', 'p', ';']
  else if c = '"' then ['&', 'q', 'u', 'o', 't', ';']
  else if c = '<' then ['&', 'l', 't', ';']
  else if c = '>' then ['&', 'g', 't', ';']
  else [c]

/-- Horrorshow's default escaping of a spliced text node.  Text
rendered with `:` goes through this; only `Raw(..)` splices bypass
it. -/
def htmlEscape (s : String) : String := ⟨s.data.flatMap escapeChar⟩

/-- The five stylesheet links in the head of every composed page. -/
def headLinks : String :=
  "<link rel=\"stylesheet\" href=\"/static/octicons/octicons.css\"><link rel=\"stylesheet\" href=\"https://github.githubassets.com/assets/frameworks-146fab5ea30e8afac08dd11013bb4ee0.css\"><link rel=\"stylesheet\" href=\"https://github.githubassets.com/assets/site-897ad5fdbe32a5cd67af5d1bdc68a292.css\"><link rel=\"stylesheet\" href=\"https://github.githubassets.com/assets/github-c21b6bf71617eeeb67a56b0d48b5bb5c.css\"><link rel=\"stylesheet\" href=\"/static/style.css\">"

/-- The live-update subscription script embedded in every page head. -/
def sseScript : String :=
  "let hash = \x27\x27;\n                           let event = new EventSource(`//$\x7blocation.host\x7d/__rs-readme$\x7blocation.pathname\x7d`);\n                           event.addEventListener(\x27update\x27, (e) => \x7b\n                              let message = JSON.parse(e.data);\n                              if (message.hash !== hash) \x7b\n                                  hash = message.hash;\n                                  document.getElementById(\x27rs-readme-content\x27).innerHTML = message.contents;\n                              \x7d\n                           \x7d);"

/-- `base_html`: the basic HTML of a page, rendered exactly as the
horrorshow template in `web_server.rs` emits it: the title is a text
node (escaped), the body content and the script are `Raw` splices. -/
def base_html (title content : String) : String :=
  "<!DOCTYPE html><html><head>" ++ headLinks ++ "<title>" ++ htmlEscape title
    ++ "</title><script>" ++ sseScript ++ "</script></head><body>"
    ++ content ++ "</body></html>"

/-- `markdown_html`: the wrapping around a rendered markdown fragment.
The `h3` heading text (a space plus the file name) is a text node and
so is escaped; the markdown body is a `Raw` splice. -/
def markdown_html (file_name md_content : String) : String :=
  "<div class=\"page\"><div id=\"preview-page\" class=\"preview-page\"><div role=\"main\" class=\"main-content\"><div class=\"container new-discussion-timeline experiment-repo-nav\"><div class=\"repository-content\"><div id=\"readme\" class=\"readme boxed-group clearfix announce instapaper_body md\"><h3><span class=\"octicon octicon-book\"></span>"
    ++ htmlEscape (" " ++ file_name)
    ++ "</h3><article id=\"rs-readme-content\" class=\"markdown-body entry-content\" itemprop=\"text\">"
    ++ md_content
    ++ "</article></div></div></div></div></div><div>&nbsp;</div></div>"

/-- Head part of the `not_markdown_html` error page, up to the place the
offending file name is spliced in; the title is a text node (escaped). -/
def nmh_head (title : String) : String :=
  "<!DOCTYPE html><html><head><title>" ++ htmlEscape title
    ++ "</title></head><body><h1>Not a Markdown File</h1><p><strong>"

/-- Tail part of the `not_markdown_html` error page. -/
def nmh_tail : String :=
  "</strong> is not a markdown file and cannot be rendered</p></body></html>"

/-- `not_markdown_html`: the error HTML indicating the requested file is
not markdown and cannot be rendered; the file name is rendered as a
text node (`strong : file`), so it appears HTML-escaped. -/
def not_markdown_html (title file : String) : String :=
  nmh_head title ++ htmlEscape file ++ nmh_tail

/-- Head part of the `file_not_found` error page, up to the `h1` text;
the title is a text node (escaped). -/
def fnf_head (title : String) : String :=
  "<!DOCTYPE html><html><head><title>" ++ htmlEscape title ++ "</title></head><body><h1>"

/-- Tail part of the `file_not_found` error page. -/
def fnf_tail : String :=
  "</h1><p>For the index page <em>rs-readme</em> will look for a file named README in the root folder. Otherwise it looks for an exact file name.</p></body></html>"

/-- `file_not_found`: the error HTML indicating the requested file can
not be found; the two `h1` text nodes are escaped — the first,
`Couldn\x27t find `, contains no escapable character (the apostrophe is
not in the escape set) and is written directly, while the file name may
pick up entities. -/
def file_not_found (title file : String) : String :=
  fnf_head title ++ ("Couldn\x27t find " ++ htmlEscape file) ++ fnf_tail

/-! ## `web_server.rs`: handlers -/

/-- `render_readme`: fetch `README.md`, convert it, compose the page.
The request is received but the handler reads nothing from it (in
particular no `If-None-Match` header and no caching decision). -/
def render_readme (finder : String → Except ContentError (String × String))
    (convert : String → Except MarkdownError String)
    (_req : Request) : Except AppFailure Response :=
  match finder "README.md" with
  | .error e => .error (.content e)
  | .ok (contents, _hash) =>
    match convert contents with
    | .error e => .error (.markdown e)
    | .ok converted =>
      .ok { status := 200
            headers := [("content-type", htmlMime)]
            body := base_html "README.md" (markdown_html "README.md" converted) }

/-- `render_markdown_path`: render any path as markdown; the title is
the final path segment, the resource is the request path with a leading
dot.  Again no header is consulted and no validator attached. -/
def render_markdown_path (finder : String → Except ContentError (String × String))
    (convert : String → Except MarkdownError String)
    (req : Request) : Except AppFailure Response :=
  let path := req.path
  let file := ((splitSlash path).getLast?).getD "rs-readme"
  match finder ("." ++ path) with
  | .error e => .error (.content e)
  | .ok (contents, _hash) =>
    match convert contents with
    | .error e => .error (.markdown e)
    | .ok converted =>
      .ok { status := 200
            headers := [("content-type", htmlMime)]
            body := base_html file (markdown_html file converted) }

/-! ## `web_server.rs`: server-sent-events handler -/

/-- One `update` event: the rendered contents and the digest, standing
for the serialised `json!(\x7b "contents": .., "hash": .. \x7d)` message. -/
structure UpdateEvent where
  contents : String
  hash : String
deriving DecidableEq

/-- The resource `render_page_update` polls: the request path with the
`/__rs-readme` prefix (12 bytes) stripped; the bare slash maps to the
index resource. -/
def sseResource (urlPath : String) : String :=
  let path : String := ⟨urlPath.data.drop 12⟩
  if path = "/" then "./README.md" else "." ++ path

/-- `render_page_update`: the body of the SSE endpoint.  It runs once
per connection: fetch, convert, send a single `update` event.  An error
anywhere is returned from the handler (ending the SSE stream). -/
def render_page_update (finder : String → Except ContentError (String × String))
    (convert : String → Except MarkdownError String)
    (urlPath : String) : Except AppFailure UpdateEvent :=
  match finder (sseResource urlPath) with
  | .error e => .error (.content e)
  | .ok (contents, hash) =>
    match convert contents with
    | .error e => .error (.markdown e)
    | .ok converted => .ok { contents := converted, hash := hash }

/-- The events pushed over one SSE connection (one poll): exactly one on
success, none when the handler fails (the stream then ends). -/
def eventsPushed (finder : String → Except ContentError (String × String))
    (convert : String → Except MarkdownError String)
    (urlPath : String) : List UpdateEvent :=
  match render_page_update finder convert urlPath with
  | .ok e => [e]
  | .error _ => []

/-! ## `web_server.rs`: error-mapping middleware -/

/-- `ErrorMiddleware::handle` composed with tide error handling: a
successful response passes through; a `ContentError` is rewritten per
the mapping (`not_markdown` / `not_found` in the source); any other
error (a `MarkdownError`) is not downcast, so the framework default
response survives: the error status (500 for a plain error) with an
empty body. -/
def runErrorMiddleware (urlPath : String) (result : Except AppFailure Response) : Response :=
  match result with
  | .ok res => res
  | .error (.content .notMarkdown) =>
    { status := 400
      headers := [("content-type", htmlMime)]
      body := not_markdown_html "rs-readme" urlPath }
  | .error (.content (.couldNotFetch resource)) =>
    { status := 404
      headers := [("content-type", htmlMime)]
      body := file_not_found "rs-readme" resource }
  | .error (.markdown _) =>
    { status := 500, headers := [], body := "" }

/-! ## `static_files.rs` -/

/-- `starts_with` on strings, computed on the character lists. -/
def strStartsWith (s pre : String) : Bool :=
  pre.data.isPrefixOf s.data

/-- The quoted form of a hex digest, as the static handlers build it. -/
def quoteHex (d : String) : String := "\"" ++ d ++ "\""

/-- The bundled octicon asset payloads (the `include_str` and
`include_bytes` constants; byte payloads stand as strings). -/
structure OcticonAssets where
  css : String
  eot : String
  svg : String
  ttf : String
  woff : String
  woff2 : String
deriving DecidableEq

/-- The fallthrough arm of the `octicons` endpoint. -/
def octiconsFallback : Response :=
  { status := 404
    headers := [("content-type", "text/html")]
    body := "This file does not exist" }

/-- The `octicons` endpoint: match the `file` route parameter by name
suffix, compare `If-None-Match` verbatim against the quoted digest of
the asset, answer 304 (bare `Response::new(304)`) on a match and 200
with the `ETag` header otherwise. -/
def octicons (sha1hex : String → String) (a : OcticonAssets)
    (fileParam : Option String) (ifNoneMatch : Option String) : Response :=
  match fileParam with
  | some p =>
    if strStartsWith p "octicons.css" then
      let digest := quoteHex (sha1hex a.css)
      if ifNoneMatch = some digest then { status := 304, headers := [], body := "" }
      else { status := 200
             headers := [("ETag", digest), ("content-type", "text/css; charset=utf-8")]
             body := a.css }
    else if strStartsWith p "octicons.eot" then
      let digest := quoteHex (sha1hex a.eot)
      if ifNoneMatch = some digest then { status := 304, headers := [], body := "" }
      else { status := 200
             headers := [("ETag", digest), ("content-type", "application/vnd.ms-fontobject")]
             body := a.eot }
    else if strStartsWith p "octicons.svg" then
      let digest := quoteHex (sha1hex a.svg)
      if ifNoneMatch = some digest then { status := 304, headers := [], body := "" }
      else { status := 200
             headers := [("ETag", digest), ("content-type", "image/svg+xml")]
             body := a.svg }
    else if strStartsWith p "octicons.ttf" then
      let digest := quoteHex (sha1hex a.ttf)
      if ifNoneMatch = some digest then { status := 304, headers := [], body := "" }
      else { status := 200
             headers := [("ETag", digest), ("content-type", "font/ttf")]
             body := a.ttf }
    else if strStartsWith p "octicons.woff2" then
      let digest := quoteHex (sha1hex a.woff2)
      if ifNoneMatch = some digest then { status := 304, headers := [], body := "" }
      else { status := 200
             headers := [("ETag", digest), ("content-type", "font/woff2")]
             body := a.woff2 }
    else if strStartsWith p "octicons.woff" then
      let digest := quoteHex (sha1hex a.woff)
      if ifNoneMatch = some digest then { status := 304, headers := [], body := "" }
      else { status := 200
             headers := [("ETag", digest), ("content-type", "font/woff")]
             body := a.woff }
    else octiconsFallback
  | none => octiconsFallback

/-- The `style` endpoint: serve the bundled stylesheet with the same
conditional-GET logic. -/
def style (sha1hex : String → String) (styleCss : String)
    (ifNoneMatch : Option String) : Response :=
  let digest := quoteHex (sha1hex styleCss)
  if ifNoneMatch = some digest then { status := 304, headers := [], body := "" }
  else { status := 200
         headers := [("ETag", digest), ("content-type", "text/css; charset=utf-8")]
         body := styleCss }

/-! ## Concrete collaborators used by the concrete theorems

These mirror the mocks of `tests/route_tests.rs` (`MockFinder` returns
`# A Readme` with digest `foo`; `MockConverter` returns
`<h1>A Readme</h1>`). -/

/-- A content source that always succeeds with fixed text and digest. -/
def mockFinder : String → Except ContentError (String × String) :=
  fun _ => .ok ("# A Readme", "foo")

/-- A converter that always succeeds with a fixed fragment. -/
def mockConvert : String → Except MarkdownError String :=
  fun _ => .ok "<h1>A Readme</h1>"

/-- A content source for which every fetch fails. -/
def failFinder : String → Except ContentError (String × String) :=
  fun r => .error (.couldNotFetch r)

/-- A disk holding a single markdown file outside any served root. -/
def secretFs : RPath → Option String :=
  fun p => if p = { absolute := true, comps := ["etc", "secret.md"] }
           then some "top secret" else none

/-- A constant stand-in digest function. -/
def shaConst : String → String := fun _ => "d0"

/-- Substring test on strings, via the character lists. -/
def containsStr (needle hay : String) : Bool :=
  decide (needle.data <:+: hay.data)

/-! ## Helper lemmas -/

theorem isPrefixOf_append_self (l t : List String) : l.isPrefixOf (l ++ t) = true := by
  induction l with
  | nil => simp [List.isPrefixOf]
  | cons a l ih => simp [List.isPrefixOf, ih]

theorem foldl_normStep_clean (B : List String) :
    ∀ acc, (∀ c ∈ B, c ≠ "." ∧ c ≠ "..") → List.foldl normStep acc B = acc ++ B := by
  induction B with
  | nil => simp
  | cons b B ih =>
    intro acc h
    have hb := h b (by simp)
    rw [List.foldl_cons,
      show normStep acc b = acc ++ [b] from by simp [normStep, hb.1, hb.2],
      ih _ (fun c hc => h c (by simp [hc]))]
    simp

theorem normComps_append_clean (A B : List String)
    (h : ∀ c ∈ B, c ≠ "." ∧ c ≠ "..") :
    normComps (A ++ B) = normComps A ++ B := by
  unfold normComps
  rw [List.foldl_append]
  exact foldl_normStep_clean B _ h

theorem parse_no_dot (s : String) : ∀ c ∈ (parsePath s).comps, c ≠ "." := by
  intro c hc
  have hp := (List.mem_filter.mp hc).2
  simp only [Bool.and_eq_true, bne_iff_ne, ne_eq] at hp
  exact hp.2

/-! ## The claims -/

/-- C1: the claim states that a request to the index route or a generic
markdown route whose `If-None-Match` header equals the current validator
gets a 304 with an empty body and no render, and that other requests get
a 200 with a body.  The code contradicts this (and the repository test
`respects_if_none_match`): `render_readme` and `render_markdown_path`
never read the header and never short-circuit.  Under the mock
collaborators of `tests/route_tests.rs` (digest `foo`), a request
carrying the matching validator `"foo"` still yields a 200 with a full
body on both routes. -/
theorem ifNoneMatch_ignored_on_markdown_routes :
    (runErrorMiddleware "/" (render_readme mockFinder mockConvert
      { path := "/", ifNoneMatch := some (quoteHex "foo") })).status = 200
    ∧ (runErrorMiddleware "/" (render_readme mockFinder mockConvert
      { path := "/", ifNoneMatch := some (quoteHex "foo") })).body ≠ ""
    ∧ (runErrorMiddleware "/foo.md" (render_markdown_path mockFinder mockConvert
      { path := "/foo.md", ifNoneMatch := some (quoteHex "foo") })).status = 200
    ∧ (runErrorMiddleware "/foo.md" (render_markdown_path mockFinder mockConvert
      { path := "/foo.md", ifNoneMatch := some (quoteHex "foo") })).body ≠ "" := by
  refine ⟨rfl, by decide, rfl, by decide⟩

/-- C3: the claim states that every 200 response of the index and
generic markdown routes carries an `ETag` header with the quoted content
digest.  The code contradicts this (and the repository test
`etag_has_the_content_digest`): both handlers discard the digest
(binder `_hash`) and attach only a content-type header, so no `ETag`
header exists on either route. -/
theorem no_etag_on_markdown_routes :
    (runErrorMiddleware "/" (render_readme mockFinder mockConvert
      { path := "/", ifNoneMatch := none })).status = 200
    ∧ (runErrorMiddleware "/" (render_readme mockFinder mockConvert
      { path := "/", ifNoneMatch := none })).headers = [("content-type", htmlMime)]
    ∧ (runErrorMiddleware "/foo.md" (render_markdown_path mockFinder mockConvert
      { path := "/foo.md", ifNoneMatch := none })).status = 200
    ∧ (runErrorMiddleware "/foo.md" (render_markdown_path mockFinder mockConvert
      { path := "/foo.md", ifNoneMatch := none })).headers = [("content-type", htmlMime)] :=
  ⟨rfl, rfl, rfl, rfl⟩

/-- C2 counterexample: the claim states that with no digest change
between two polls, zero events are pushed.  The handler keeps no
last-pushed digest: with an unchanged content source every poll (one
poll per SSE connection) pushes one event, so two successive unchanged
polls push two events, not zero. -/
theorem live_update_pushes_on_unchanged_poll :
    eventsPushed mockFinder mockConvert "/__rs-readme/"
      = [{ contents := "<h1>A Readme</h1>", hash := "foo" }]
    ∧ (eventsPushed mockFinder mockConvert "/__rs-readme/"
        ++ eventsPushed mockFinder mockConvert "/__rs-readme/").length = 2 :=
  ⟨rfl, rfl⟩

/-- C2 amended: per SSE connection the server fetches and renders the
target once and pushes exactly one `update` event carrying the rendered
contents and the fetched digest, unconditionally — no digest comparison
happens on the server (the injected page script compares hashes on the
client, and the periodic effect comes from the client reconnecting). -/
theorem live_update_single_event_per_connection
    (finder : String → Except ContentError (String × String))
    (convert : String → Except MarkdownError String)
    (urlPath contents h html : String)
    (hf : finder (sseResource urlPath) = .ok (contents, h))
    (hc : convert contents = .ok html) :
    render_page_update finder convert urlPath = .ok { contents := html, hash := h } := by
  simp [render_page_update, hf, hc]

/-- Witness for the C2 amended theorem at the mock collaborators. -/
theorem live_update_single_event_per_connection_witness :
    render_page_update mockFinder mockConvert "/__rs-readme/"
      = .ok { contents := "<h1>A Readme</h1>", hash := "foo" } :=
  live_update_single_event_per_connection mockFinder mockConvert
    "/__rs-readme/" "# A Readme" "foo" "<h1>A Readme</h1>" rfl rfl

/-- C4 counterexample: the claim states the resolved path never escapes
the configured root, for all inputs including parent-dir segments or
absolute paths.  `FileFinder::content_for` performs no validation: an
absolute resource replaces the root entirely (`PathBuf::push`
semantics) and is happily opened, and a parent-dir resource also leaves
the root. -/
theorem content_for_escapes_root :
    content_for secretFs (fun _ => "h") "/docs" "/etc/secret.md" = .ok ("top secret", "h")
    ∧ underRoot (parsePath "/docs")
        ((parsePath "/docs").push (parsePath "/etc/secret.md")) = false
    ∧ underRoot (parsePath "/docs")
        ((parsePath "/docs").push (parsePath "../escape.md")) = false :=
  ⟨rfl, rfl, rfl⟩

/-- C4 amended: the finder joins the root and the resource with plain
`PathBuf::push` semantics and no validation, so escaping inputs exist
(see the counterexample); the resolved path is guaranteed under the
root exactly for the benign inputs — a relative resource free of
parent-directory segments. -/
theorem resolved_path_under_root_of_clean (root resource : String)
    (hrel : isAbs resource = false)
    (hclean : ".." ∉ (parsePath resource).comps) :
    underRoot (parsePath root) ((parsePath root).push (parsePath resource)) = true := by
  have habs : (parsePath resource).absolute = false := hrel
  have hAll : ∀ c ∈ (parsePath resource).comps, c ≠ "." ∧ c ≠ ".." :=
    fun c hc => ⟨parse_no_dot resource c hc, fun h => hclean (h ▸ hc)⟩
  simp only [RPath.push, habs, Bool.false_eq_true, if_false]
  simp only [underRoot, Bool.and_eq_true, beq_self_eq_true, true_and]
  rw [normComps_append_clean _ _ hAll]
  exact isPrefixOf_append_self _ _

/-- Witness for the C4 amended theorem: a benign relative resource
resolves under the root. -/
theorem resolved_path_under_root_of_clean_witness :
    underRoot (parsePath "/docs")
      ((parsePath "/docs").push (parsePath "guides/intro.md")) = true :=
  resolved_path_under_root_of_clean "/docs" "guides/intro.md" rfl (by decide)

/-- C5 counterexample: the claim states a `NotFound(resource)` failure
yields a 404 with a plain-text body of the form
`Could not find <resource>`.  The middleware does answer 404, but the
body is a composed HTML document (content-type `text/html`) whose
wording is `Couldn\x27t find <resource>`; the claimed plain-text phrase
does not occur in it. -/
theorem not_found_body_is_html_not_plain :
    (runErrorMiddleware "/" (.error (.content (.couldNotFetch "README.md")))).status = 404
    ∧ containsStr "Could not find"
        (runErrorMiddleware "/" (.error (.content (.couldNotFetch "README.md")))).body = false
    ∧ (runErrorMiddleware "/" (.error (.content (.couldNotFetch "README.md")))).headers
        = [("content-type", htmlMime)] := by
  refine ⟨rfl, by decide, rfl⟩

/-- C5 amended: a `NotFound(resource)` failure yields status 404 with
content-type `text/html` and the `file_not_found` HTML body, which
contains `Couldn\x27t find ` followed by the HTML-escaped resource name
(the resource verbatim whenever it holds no `&`, `"`, `<`, `>`, as in
the spec example `README.md`, shown concretely); the index handler
surfacing `NotFound("README.md")` lands in exactly this response. -/
theorem not_found_maps_to_404_html (resource urlPath : String) :
    runErrorMiddleware urlPath (.error (.content (.couldNotFetch resource)))
      = { status := 404, headers := [("content-type", htmlMime)]
          body := file_not_found "rs-readme" resource }
    ∧ ("Couldn\x27t find " ++ htmlEscape resource).data <:+:
        (runErrorMiddleware urlPath (.error (.content (.couldNotFetch resource)))).body.data
    ∧ containsStr "Couldn\x27t find README.md"
        (runErrorMiddleware "/" (.error (.content (.couldNotFetch "README.md")))).body = true
    ∧ runErrorMiddleware urlPath
        (render_readme failFinder mockConvert { path := urlPath, ifNoneMatch := none })
      = runErrorMiddleware urlPath (.error (.content (.couldNotFetch "README.md"))) := by
  refine ⟨rfl, ⟨(fnf_head "rs-readme").data, fnf_tail.data, ?_⟩, by decide, rfl⟩
  simp [runErrorMiddleware, file_not_found, String.data_append]

/-- C6 counterexample: the claim states a `RendererUnavailable(reason)`
failure yields a 500 whose plain-text body includes the reason and the
offending markdown.  The middleware only downcasts `ContentError`; a
`MarkdownError` passes through as the framework default response:
status 500 with an empty body, containing neither the reason nor any
source text. -/
theorem renderer_error_body_is_empty :
    runErrorMiddleware "/foo.md" (.error (.markdown (.converterUnavailable "api down")))
      = { status := 500, headers := [], body := "" }
    ∧ containsStr "api down"
        (runErrorMiddleware "/foo.md"
          (.error (.markdown (.converterUnavailable "api down")))).body = false :=
  ⟨rfl, by decide⟩

/-- C6 amended: a `RendererUnavailable(reason)` failure does surface
status 500, but the middleware leaves it unmapped and the response body
is empty — it includes neither the reason nor the markdown source; the
index handler with a failing converter lands in exactly this
response. -/
theorem renderer_error_maps_to_bare_500 (urlPath reason : String) :
    runErrorMiddleware urlPath (.error (.markdown (.converterUnavailable reason)))
      = { status := 500, headers := [], body := "" }
    ∧ runErrorMiddleware urlPath
        (render_readme mockFinder (fun _ => .error (.converterUnavailable reason))
          { path := urlPath, ifNoneMatch := none })
      = { status := 500, headers := [], body := "" } :=
  ⟨rfl, rfl⟩

/-- C7 counterexample: the claim states a failed poll is swallowed and
the channel stays open.  The handler propagates the first fetch failure
out of the SSE endpoint (so the stream ends with it): nothing in
`render_page_update` catches the error. -/
theorem poll_failure_closes_channel :
    render_page_update failFinder mockConvert "/__rs-readme/"
      = .error (.content (.couldNotFetch "./README.md"))
    ∧ (render_page_update failFinder mockConvert "/__rs-readme/").isOk = false :=
  ⟨rfl, rfl⟩

/-- C7 amended: a fetch or render failure during a poll is propagated
out of the SSE handler (ending that connection) rather than swallowed;
reconnection — and hence the retry — is left to the client. -/
theorem poll_failure_propagates
    (finder : String → Except ContentError (String × String))
    (convert : String → Except MarkdownError String)
    (urlPath : String) :
    (∀ e, finder (sseResource urlPath) = .error e →
      render_page_update finder convert urlPath = .error (.content e))
    ∧ (∀ contents h e, finder (sseResource urlPath) = .ok (contents, h) →
        convert contents = .error e →
        render_page_update finder convert urlPath = .error (.markdown e)) := by
  constructor
  · intro e he
    simp [render_page_update, he]
  · intro contents h e hf hc
    simp [render_page_update, hf, hc]

/-- Witness for the C7 amended theorem: a failing fetch surfaces as the
handler's error. -/
theorem poll_failure_propagates_witness :
    render_page_update failFinder mockConvert "/__rs-readme/"
      = .error (.content (.couldNotFetch "./README.md")) :=
  (poll_failure_propagates failFinder mockConvert "/__rs-readme/").1
    (.couldNotFetch "./README.md") rfl

/-- C8 counterexample: the claim states that a static-asset 304 answer
still carries the validator header.  Both static handlers answer a
matching `If-None-Match` with a bare `Response::new(304)`: empty body
and no headers at all, in particular no `ETag`. -/
theorem static_304_carries_no_validator :
    style shaConst "body" (some (quoteHex "d0"))
      = { status := 304, headers := [], body := "" }
    ∧ octicons shaConst
        { css := "c", eot := "e", svg := "s", ttf := "t", woff := "w", woff2 := "w2" }
        (some "octicons.css") (some (quoteHex "d0"))
      = { status := 304, headers := [], body := "" } :=
  ⟨rfl, rfl⟩

/-- C8 amended: for the bundled stylesheet and each icon-font asset, an
`If-None-Match` header exactly equal to the quoted digest of the asset
bytes yields status 304 with an empty body and no headers (no validator
header); any other request yields status 200 with the asset body and
the quoted digest attached as an `ETag` header. -/
theorem static_conditional_get (sha : String → String) (a : OcticonAssets)
    (css : String) (inm : Option String) :
    style sha css inm
      = (if inm = some (quoteHex (sha css))
         then { status := 304, headers := [], body := "" }
         else { status := 200
                headers := [("ETag", quoteHex (sha css)), ("content-type", "text/css; charset=utf-8")]
                body := css })
    ∧ octicons sha a (some "octicons.css") inm
      = (if inm = some (quoteHex (sha a.css))
         then { status := 304, headers := [], body := "" }
         else { status := 200
                headers := [("ETag", quoteHex (sha a.css)), ("content-type", "text/css; charset=utf-8")]
                body := a.css })
    ∧ octicons sha a (some "octicons.eot") inm
      = (if inm = some (quoteHex (sha a.eot))
         then { status := 304, headers := [], body := "" }
         else { status := 200
                headers := [("ETag", quoteHex (sha a.eot)), ("content-type", "application/vnd.ms-fontobject")]
                body := a.eot })
    ∧ octicons sha a (some "octicons.svg") inm
      = (if inm = some (quoteHex (sha a.svg))
         then { status := 304, headers := [], body := "" }
         else { status := 200
                headers := [("ETag", quoteHex (sha a.svg)), ("content-type", "image/svg+xml")]
                body := a.svg })
    ∧ octicons sha a (some "octicons.ttf") inm
      = (if inm = some (quoteHex (sha a.ttf))
         then { status := 304, headers := [], body := "" }
         else { status := 200
                headers := [("ETag", quoteHex (sha a.ttf)), ("content-type", "font/ttf")]
                body := a.ttf })
    ∧ octicons sha a (some "octicons.woff2") inm
      = (if inm = some (quoteHex (sha a.woff2))
         then { status := 304, headers := [], body := "" }
         else { status := 200
                headers := [("ETag", quoteHex (sha a.woff2)), ("content-type", "font/woff2")]
                body := a.woff2 })
    ∧ octicons sha a (some "octicons.woff") inm
      = (if inm = some (quoteHex (sha a.woff))
         then { status := 304, headers := [], body := "" }
         else { status := 200
                headers := [("ETag", quoteHex (sha a.woff)), ("content-type", "font/woff")]
                body := a.woff }) :=
  ⟨rfl, rfl, rfl, rfl, rfl, rfl, rfl⟩

/-- C9 counterexample: the claim states the 400 body contains the
offending request path.  Horrorshow escapes spliced text nodes, so for
a path holding an ampersand (legal raw in a URL path) the body carries
only the escaped form: at `/a&b.txt` the status is 400 as claimed, but
the raw path is not a byte substring of the body — only
`/a&amp;b.txt` is. -/
theorem not_markdown_body_escapes_path :
    (runErrorMiddleware "/a&b.txt" (.error (.content .notMarkdown))).status = 400
    ∧ containsStr "/a&b.txt"
        (runErrorMiddleware "/a&b.txt" (.error (.content .notMarkdown))).body = false
    ∧ containsStr "/a&amp;b.txt"
        (runErrorMiddleware "/a&b.txt" (.error (.content .notMarkdown))).body = true :=
  ⟨rfl, by decide, by decide⟩

/-- C9 amended: a `NotMarkdown` failure is mapped by the middleware to
status 400 with the composed `not_markdown_html` page for the request
path, whose body contains the HTML-escaped offending path as a
substring (the raw path verbatim whenever it holds no `&`, `"`, `<`,
`>`, as in the spec example `/foo.txt`, shown concretely); the generic
markdown handler surfacing `NotMarkdown` lands in exactly this
response. -/
theorem not_markdown_maps_to_400 (urlPath : String)
    (convert : String → Except MarkdownError String) :
    runErrorMiddleware urlPath (.error (.content .notMarkdown))
      = { status := 400, headers := [("content-type", htmlMime)]
          body := not_markdown_html "rs-readme" urlPath }
    ∧ (htmlEscape urlPath).data <:+:
        (runErrorMiddleware urlPath (.error (.content .notMarkdown))).body.data
    ∧ containsStr "foo.txt"
        (runErrorMiddleware "/foo.txt" (.error (.content .notMarkdown))).body = true
    ∧ runErrorMiddleware urlPath
        (render_markdown_path (fun _ => .error .notMarkdown) convert
          { path := urlPath, ifNoneMatch := none })
      = runErrorMiddleware urlPath (.error (.content .notMarkdown)) := by
  refine ⟨rfl, ⟨(nmh_head "rs-readme").data, nmh_tail.data, ?_⟩, by decide, rfl⟩
  simp [runErrorMiddleware, not_markdown_html, String.data_append]

/-- C10: `FileFinder::content_for` computes the extension of the path
it resolves for the resource (root joined with resource, exactly as the
code does) and answers `NotMarkdown` whenever that extension is not
`md`, for every possible disk state — i.e. before any file access;
consequently `CouldNotFetch` (the not-found failure) only ever occurs
when the resolved path has the `md` extension, and always names the
requested resource. -/
theorem extension_checked_before_open (fs : RPath → Option String)
    (sha : String → String) (root resource : String) :
    (((parsePath root).push (parsePath resource)).extension ≠ "md" →
      content_for fs sha root resource = .error .notMarkdown)
    ∧ (∀ r, content_for fs sha root resource = .error (.couldNotFetch r) →
        ((parsePath root).push (parsePath resource)).extension = "md" ∧ r = resource) := by
  refine ⟨fun hne => ?_, fun r hr => ?_⟩
  · simp only [content_for]
    rw [if_pos hne]
  · simp only [content_for] at hr
    by_cases hx : ((parsePath root).push (parsePath resource)).extension = "md"
    · refine ⟨hx, ?_⟩
      rw [if_neg (by simp [hx])] at hr
      cases hfs : fs ((parsePath root).push (parsePath resource)) with
      | none => rw [hfs] at hr; simp at hr; exact hr.symm
      | some c => rw [hfs] at hr; simp at hr
    · rw [if_pos hx] at hr
      simp at hr

/-- Witness for C10: a `txt` resource is rejected as not markdown on an
empty disk, and a missing `md` resource is reported as not fetched with
the `md` extension on the resolved path. -/
theorem extension_checked_before_open_witness :
    content_for (fun _ => none) (fun _ => "") "." "notes.txt" = .error .notMarkdown
    ∧ (((parsePath ".").push (parsePath "notes.md")).extension = "md"
        ∧ "notes.md" = "notes.md") :=
  ⟨(extension_checked_before_open (fun _ => none) (fun _ => "") "." "notes.txt").1
      (by decide),
   (extension_checked_before_open (fun _ => none) (fun _ => "") "." "notes.md").2
      "notes.md" rfl⟩

end RsReadme
